import Mathlib

/-!
Shallow embedding of the variable-sensitivity abstract-domain configuration
and object factory from
`src/analyses/variable-sensitivity/variable_sensitivity_object_factory.h`,
together with a spec-derived model of the abstract-object merge lattice
(the concrete abstract-object classes are declared via includes but their
code is not part of this source tree).
-/

/-- Model of `optionst`: `get_bool_option` looks a flag name up. -/
structure optionst where
  get_bool_option : String → Bool

/-- Model of `invalid_command_line_argument_exceptiont` as thrown by
`vsd_configt::from_options`: message, offending flags, suggested fix. -/
structure invalid_command_line_argument_exceptiont where
  reason : String
  correct_option : String
  suggested_fix : String
deriving Repr, DecidableEq

/-- Field group `primitive_sensitivity` of `vsd_configt`. -/
structure primitive_sensitivityt where
  struct_sensitivity : Bool
  array_sensitivity : Bool
  pointer_sensitivity : Bool
deriving Repr, DecidableEq

/-- Field group `context_tracking` of `vsd_configt`. -/
structure context_trackingt where
  data_dependency_context : Bool
  last_write_context : Bool
deriving Repr, DecidableEq

/-- Field group `advanced_sensitivities` of `vsd_configt`. -/
structure advanced_sensitivitiest where
  intervals : Bool
  value_set : Bool
  new_value_set : Bool
deriving Repr, DecidableEq

/-- Model of `vsd_configt` (three groups of booleans). Zero initialisation
`vsd_configt config{}` corresponds to all fields `false`. -/
structure vsd_configt where
  primitive_sensitivity : primitive_sensitivityt
  context_tracking : context_trackingt
  advanced_sensitivities : advanced_sensitivitiest
deriving Repr, DecidableEq

/-- The all-false configuration, modelling `vsd_configt config{}`. -/
def vsd_configt.zero : vsd_configt :=
  { primitive_sensitivity :=
      { struct_sensitivity := false
        array_sensitivity := false
        pointer_sensitivity := false }
    context_tracking :=
      { data_dependency_context := false
        last_write_context := false }
    advanced_sensitivities :=
      { intervals := false
        value_set := false
        new_value_set := false } }

/-- Embedding of `vsd_configt::from_options` (factory header, lines 56-91).
Throwing the exception is modelled by returning `.error`. -/
def vsd_configt.from_options (options : optionst) :
    Except invalid_command_line_argument_exceptiont vsd_configt :=
  if options.get_bool_option "value-set" &&
     options.get_bool_option "data-dependencies" then
    .error
      { reason :=
          "Value set is not currently supported with data dependency analysis"
        correct_option := "--value-set --data-dependencies"
        suggested_fix := "--data-dependencies" }
  else
    .ok
      { primitive_sensitivity :=
          { struct_sensitivity := options.get_bool_option "structs"
            array_sensitivity := options.get_bool_option "arrays"
            pointer_sensitivity := options.get_bool_option "pointers" }
        context_tracking :=
          { last_write_context := !options.get_bool_option "value-set"
            data_dependency_context :=
              options.get_bool_option "data-dependencies" }
        advanced_sensitivities :=
          { intervals := options.get_bool_option "interval"
            value_set := options.get_bool_option "value-set"
            new_value_set := options.get_bool_option "new-value-set" } }

/-- Embedding of the `vsd_configt::constant_domain` preset. -/
def vsd_configt.constant_domain : vsd_configt :=
  { vsd_configt.zero with
    primitive_sensitivity :=
      { struct_sensitivity := true
        array_sensitivity := true
        pointer_sensitivity := true }
    context_tracking :=
      { vsd_configt.zero.context_tracking with last_write_context := true } }

/-- Embedding of the `vsd_configt::value_set` preset. -/
def vsd_configt.value_set : vsd_configt :=
  { vsd_configt.zero with
    primitive_sensitivity :=
      { struct_sensitivity := true
        array_sensitivity := true
        pointer_sensitivity := true }
    advanced_sensitivities :=
      { vsd_configt.zero.advanced_sensitivities with value_set := true } }

/-- Embedding of the `vsd_configt::intervals` preset. -/
def vsd_configt.intervals : vsd_configt :=
  { vsd_configt.zero with
    primitive_sensitivity :=
      { struct_sensitivity := true
        array_sensitivity := true
        pointer_sensitivity := true }
    context_tracking :=
      { vsd_configt.zero.context_tracking with last_write_context := true }
    advanced_sensitivities :=
      { vsd_configt.zero.advanced_sensitivities with intervals := true } }

/-- Opaque model of `typet`: only identity and decidable equality matter
to the factory. -/
structure typet where
  id : Nat
deriving Repr, DecidableEq

/-- Opaque model of `exprt`: an identity plus its declared type (`e.type()`). -/
structure exprt where
  id : Nat
  type : typet
deriving Repr, DecidableEq

/-- Model of `namespacet`: `follow` resolves a type to its structural
definition. -/
structure namespacet where
  follow : typet → typet

/-- Opaque model of `abstract_environmentt` as seen by the factory (it is
only passed through to abstract-object constructors). -/
structure abstract_environmentt where
  id : Nat
deriving Repr, DecidableEq

/-- The `ABSTRACT_OBJECT_TYPET` enum of the factory (the template argument
`abstract_object_classt` is one of the classes this enum selects). -/
inductive ABSTRACT_OBJECT_TYPET where
  | TWO_VALUE
  | CONSTANT
  | INTERVAL
  | ARRAY_SENSITIVE
  | ARRAY_INSENSITIVE
  | POINTER_SENSITIVE
  | POINTER_INSENSITIVE
  | STRUCT_SENSITIVE
  | STRUCT_INSENSITIVE
  | UNION_INSENSITIVE
  | VALUE_SET
deriving Repr, DecidableEq

/-- The two context-wrapper classes the factory may instantiate as the
`context_classt` template argument. -/
inductive context_kindt where
  | data_dependency_context
  | write_location_context
deriving Repr, DecidableEq

/-- Modelled from the spec: the abstract-object hierarchy as the factory
sees it (the class bodies of `abstract_objectt`, `context_abstract_objectt`
and their subclasses are in includes outside this source tree). A base
object records which class was instantiated, its declared type, its
`is_top`/`is_bottom` flags and the seed expression it was built from, if
any; a context object owns exactly one inner object plus the same data. -/
inductive abstract_objectt where
  | base (variant : ABSTRACT_OBJECT_TYPET) (type : typet)
      (top : Bool) (bottom : Bool) (seed : Option exprt)
  | context_object (kind : context_kindt) (inner : abstract_objectt)
      (type : typet) (top : Bool) (bottom : Bool) (seed : Option exprt)
deriving Repr, DecidableEq

/-- Modelled from the spec: `is_top()` reads the object's top flag. -/
def abstract_objectt.is_top : abstract_objectt → Bool
  | .base _ _ t _ _ => t
  | .context_object _ _ _ t _ _ => t

/-- Modelled from the spec: `is_bottom()` reads the object's bottom flag. -/
def abstract_objectt.is_bottom : abstract_objectt → Bool
  | .base _ _ _ b _ => b
  | .context_object _ _ _ _ b _ => b

/-- Number of context wrappers around the base object. -/
def abstract_objectt.wrap_depth : abstract_objectt → Nat
  | .base _ _ _ _ _ => 0
  | .context_object _ inner _ _ _ _ => inner.wrap_depth + 1

/-- Model of a `PRECONDITION` failure (the `ContractViolation` of the spec):
the violated condition, rendered as text. -/
structure contract_violationt where
  condition : String
deriving Repr, DecidableEq

/-- Modelled from the spec: the constructor
`abstract_object_classt(type, top, bottom)` builds the object directly in
the requested lattice state; no seed expression is involved. -/
def abstract_object_from_flags (variant : ABSTRACT_OBJECT_TYPET)
    (type : typet) (top bottom : Bool) : abstract_objectt :=
  .base variant type top bottom none

/-- Modelled from the spec: the constructor
`abstract_object_classt(e, environment, ns)` builds a non-top, non-bottom
object whose declared type is the resolved type of the seed expression. -/
def abstract_object_from_expr (variant : ABSTRACT_OBJECT_TYPET)
    (e : exprt) (_environment : abstract_environmentt) (ns : namespacet) :
    abstract_objectt :=
  .base variant (ns.follow e.type) false false (some e)

/-- Embedding of
`variable_sensitivity_object_factoryt::initialize_context_abstract_object`
(factory header, lines 262-289); `kind` is the `context_classt` template
argument and `variant` the `abstract_object_classt` one. A `PRECONDITION`
failure is modelled by returning `.error`. -/
def make_context_abstract_object (kind : context_kindt)
    (variant : ABSTRACT_OBJECT_TYPET) (type : typet) (top bottom : Bool)
    (e : exprt) (environment : abstract_environmentt) (ns : namespacet) :
    Except contract_violationt abstract_objectt :=
  if top || bottom then
    .ok (.context_object kind
      (abstract_object_from_flags variant type top bottom)
      type top bottom none)
  else if type = ns.follow e.type then
    .ok (.context_object kind
      (abstract_object_from_expr variant e environment ns)
      (ns.follow e.type) false false (some e))
  else
    .error { condition := "type == ns.follow(e.type())" }

/-- Embedding of
`variable_sensitivity_object_factoryt::initialize_abstract_object`
(factory header, lines 228-260): dispatch on the configured context
tracking, then construct, checking the type/seed precondition on the
unwrapped path. -/
def make_abstract_object (configuration : vsd_configt)
    (variant : ABSTRACT_OBJECT_TYPET) (type : typet) (top bottom : Bool)
    (e : exprt) (environment : abstract_environmentt) (ns : namespacet) :
    Except contract_violationt abstract_objectt :=
  if configuration.context_tracking.data_dependency_context then
    make_context_abstract_object .data_dependency_context variant type
      top bottom e environment ns
  else if configuration.context_tracking.last_write_context then
    make_context_abstract_object .write_location_context variant type
      top bottom e environment ns
  else if top || bottom then
    .ok (abstract_object_from_flags variant type top bottom)
  else if type = ns.follow e.type then
    .ok (abstract_object_from_expr variant e environment ns)
  else
    .error { condition := "type == ns.follow(e.type())" }

/-! Modelled from the spec: the lattice `merge` operations of the
abstract-object variants. The class bodies (`abstract_objectt::merge` and
its overrides in `constant_abstract_value.h`, `interval_abstract_value.h`,
`value_set_abstract_object.h`, the struct/array/pointer/union objects)
live in includes outside this source tree, so they are modelled here from
the spec's description in section 4.3: every object carries `is_top` and
`is_bottom` flags and, when neither is set, a variant-specific payload. -/

/-- An abstract value of one variant: top, bottom, or a payload `a`. -/
inductive flag_domaint (α : Type) where
  | top
  | bot
  | val (a : α)
deriving Repr, DecidableEq

/-- Merge lifted from a payload join `j`: bottom is the identity, top is
absorbing, and two payloads merge through `j` (which may overflow to top,
as the constant and value-set variants do). -/
def fd_merge (j : α → α → flag_domaint α) :
    flag_domaint α → flag_domaint α → flag_domaint α
  | .bot, y => y
  | .top, _ => .top
  | .val a, .bot => .val a
  | .val _, .top => .top
  | .val a, .val b => j a b

/-- The five lattice laws of spec section 8 for a merge operation. -/
def lattice_laws (m : α → α → α) (bo tp : α) : Prop :=
  (∀ a b, m a b = m b a) ∧
  (∀ a b c, m a (m b c) = m (m a b) c) ∧
  (∀ a, m a a = a) ∧
  (∀ a, m a bo = a) ∧
  (∀ a, m a tp = tp)

/-- Payload join of the two-value and constant variants: equal values keep
the value, differing values go to top. -/
def eq_join [DecidableEq α] (a b : α) : flag_domaint α :=
  if a = b then .val a else .top

/-- Payload join of the interval variant: convex hull of the two bound
pairs (lower, upper). -/
def interval_join (a b : Int × Int) : flag_domaint (Int × Int) :=
  .val (min a.1 b.1, max a.2 b.2)

/-- A value-set payload: an explicit candidate set within the cardinality
bound `K`. -/
def value_sett (K : Nat) (α : Type) [DecidableEq α] :=
  { s : Finset α // s.card ≤ K }

/-- Payload join of the value-set (and pointer-sensitive) variants: union
the candidate sets, collapsing to top when the bound `K` is exceeded. -/
def value_set_join (K : Nat) [DecidableEq α] (s t : value_sett K α) :
    flag_domaint (value_sett K α) :=
  if h : (s.1 ∪ t.1).card ≤ K then .val ⟨s.1 ∪ t.1, h⟩ else .top

/-- Payload join of the field-wise (struct-sensitive) and index-wise
(array-sensitive) variants: delegate per field/index to the element
merge `em` (field sets are fixed by the shared type). -/
def fieldwise_join (em : β → β → β) (xs ys : List β) :
    flag_domaint (List β) :=
  .val (List.zipWith em xs ys)

/-- Payload join of the insensitive variants (array, struct, pointer,
union): delegate once to the single summary element's merge `em`. -/
def summary_join (em : β → β → β) (x y : β) : flag_domaint β :=
  .val (em x y)

/-- Merge of the two-value variant (payload: the single tracked value,
here as an expression). -/
def two_value_merge : flag_domaint exprt → flag_domaint exprt →
    flag_domaint exprt :=
  fd_merge eq_join

/-- Merge of the constant variant. -/
def constant_merge : flag_domaint Int → flag_domaint Int →
    flag_domaint Int :=
  fd_merge eq_join

/-- Merge of the interval variant (convex hull; widening is a separate
fixpoint-iteration mechanism, not part of merge). -/
def interval_merge : flag_domaint (Int × Int) → flag_domaint (Int × Int) →
    flag_domaint (Int × Int) :=
  fd_merge interval_join

/-- Merge of the value-set variant with cardinality bound `K`. -/
def value_set_merge (K : Nat) :
    flag_domaint (value_sett K Int) → flag_domaint (value_sett K Int) →
    flag_domaint (value_sett K Int) :=
  fd_merge (value_set_join K)

/-- Merge of the struct-sensitive variant: field-wise, each field itself a
constant-variant abstract value. -/
def struct_sensitive_merge :
    flag_domaint (List (flag_domaint Int)) →
    flag_domaint (List (flag_domaint Int)) →
    flag_domaint (List (flag_domaint Int)) :=
  fd_merge (fieldwise_join constant_merge)

/-- Merge of the array-sensitive variant: index-wise, each element itself
a constant-variant abstract value. -/
def array_sensitive_merge :
    flag_domaint (List (flag_domaint Int)) →
    flag_domaint (List (flag_domaint Int)) →
    flag_domaint (List (flag_domaint Int)) :=
  fd_merge (fieldwise_join constant_merge)

/-- Merge of the pointer-sensitive variant: a bounded target set with
offsets (target identity × offset), merged like value-set. -/
def pointer_sensitive_merge (K : Nat) :
    flag_domaint (value_sett K (Nat × Int)) →
    flag_domaint (value_sett K (Nat × Int)) →
    flag_domaint (value_sett K (Nat × Int)) :=
  fd_merge (value_set_join K)

/-- Merge of the struct-insensitive variant: one summary element. -/
def struct_insensitive_merge :
    flag_domaint (flag_domaint Int) → flag_domaint (flag_domaint Int) →
    flag_domaint (flag_domaint Int) :=
  fd_merge (summary_join constant_merge)

/-- Merge of the array-insensitive variant: one summary element. -/
def array_insensitive_merge :
    flag_domaint (flag_domaint Int) → flag_domaint (flag_domaint Int) →
    flag_domaint (flag_domaint Int) :=
  fd_merge (summary_join constant_merge)

/-- Merge of the pointer-insensitive variant: one summary element. -/
def pointer_insensitive_merge :
    flag_domaint (flag_domaint Int) → flag_domaint (flag_domaint Int) →
    flag_domaint (flag_domaint Int) :=
  fd_merge (summary_join constant_merge)

/-- Merge of the union-insensitive variant (the only supported union
mode): one summary element. -/
def union_insensitive_merge :
    flag_domaint (flag_domaint Int) → flag_domaint (flag_domaint Int) →
    flag_domaint (flag_domaint Int) :=
  fd_merge (summary_join constant_merge)

/-- The context-wrapper kind at the outside of an object, if any. -/
def abstract_objectt.context_kind : abstract_objectt → Option context_kindt
  | .base _ _ _ _ _ => none
  | .context_object k _ _ _ _ _ => some k

/-! Helper lemmas: the lifted merge satisfies the lattice laws whenever
the payload join is commutative, idempotent and associative in the lifted
sense. -/

theorem fd_merge_bot_right (j : α → α → flag_domaint α)
    (x : flag_domaint α) : fd_merge j x .bot = x := by
  cases x <;> rfl

theorem fd_merge_top_right (j : α → α → flag_domaint α)
    (x : flag_domaint α) : fd_merge j x .top = .top := by
  cases x <;> rfl

theorem fd_merge_comm (j : α → α → flag_domaint α)
    (hj : ∀ a b, j a b = j b a) (x y : flag_domaint α) :
    fd_merge j x y = fd_merge j y x := by
  cases x <;> cases y <;> simp [fd_merge, hj]

theorem fd_merge_idem (j : α → α → flag_domaint α)
    (hj : ∀ a, j a a = .val a) (x : flag_domaint α) :
    fd_merge j x x = x := by
  cases x <;> simp [fd_merge, hj]

theorem fd_merge_bot_left (j : α → α → flag_domaint α)
    (y : flag_domaint α) : fd_merge j .bot y = y := rfl

theorem fd_merge_top_left (j : α → α → flag_domaint α)
    (y : flag_domaint α) : fd_merge j .top y = .top := rfl

theorem fd_merge_val_val (j : α → α → flag_domaint α) (a b : α) :
    fd_merge j (.val a) (.val b) = j a b := rfl

theorem fd_merge_assoc (j : α → α → flag_domaint α)
    (hj : ∀ a b c, fd_merge j (j a b) (.val c) = fd_merge j (.val a) (j b c))
    (x y z : flag_domaint α) :
    fd_merge j x (fd_merge j y z) = fd_merge j (fd_merge j x y) z := by
  cases x <;> cases y <;> cases z <;>
    simp only [fd_merge_bot_left, fd_merge_top_left, fd_merge_val_val,
      fd_merge_bot_right, fd_merge_top_right] <;>
    exact (hj _ _ _).symm

theorem fd_merge_laws (j : α → α → flag_domaint α)
    (hcomm : ∀ a b, j a b = j b a)
    (hidem : ∀ a, j a a = .val a)
    (hassoc : ∀ a b c,
      fd_merge j (j a b) (.val c) = fd_merge j (.val a) (j b c)) :
    lattice_laws (fd_merge j) .bot .top :=
  ⟨fd_merge_comm j hcomm,
   fd_merge_assoc j hassoc,
   fd_merge_idem j hidem,
   fd_merge_bot_right j,
   fd_merge_top_right j⟩

theorem eq_join_comm [DecidableEq α] (a b : α) :
    eq_join a b = eq_join b a := by
  unfold eq_join
  by_cases h : a = b
  · subst h; simp
  · have h' : ¬b = a := fun hba => h hba.symm
    simp [h, h']

theorem eq_join_idem [DecidableEq α] (a : α) :
    eq_join a a = flag_domaint.val a := by
  simp [eq_join]

theorem eq_join_hassoc [DecidableEq α] (a b c : α) :
    fd_merge eq_join (eq_join a b) (.val c)
      = fd_merge eq_join (.val a) (eq_join b c) := by
  unfold eq_join
  by_cases hab : a = b
  · subst hab
    by_cases hac : a = c
    · subst hac; simp [fd_merge, eq_join]
    · simp [fd_merge, eq_join, hac]
  · by_cases hbc : b = c
    · subst hbc; simp [fd_merge, eq_join, hab]
    · simp [fd_merge, eq_join, hab, hbc]

theorem interval_join_comm (a b : Int × Int) :
    interval_join a b = interval_join b a := by
  simp [interval_join, min_comm, max_comm]

theorem interval_join_idem (a : Int × Int) :
    interval_join a a = flag_domaint.val a := by
  simp [interval_join]

theorem interval_join_hassoc (a b c : Int × Int) :
    fd_merge interval_join (interval_join a b) (.val c)
      = fd_merge interval_join (.val a) (interval_join b c) := by
  simp [interval_join, fd_merge_val_val, min_assoc, max_assoc]

theorem value_set_join_comm {α : Type} [DecidableEq α] (K : Nat)
    (s t : value_sett K α) :
    value_set_join K s t = value_set_join K t s := by
  unfold value_set_join
  rw [Finset.union_comm]

theorem value_set_join_idem {α : Type} [DecidableEq α] (K : Nat)
    (s : value_sett K α) :
    value_set_join K s s = flag_domaint.val s := by
  unfold value_set_join
  rcases s with ⟨s, hs⟩
  simp [Finset.union_self, hs]

theorem card_union_not_le_left {α : Type} [DecidableEq α] (K : Nat)
    (s t : Finset α) (h : ¬s.card ≤ K) : ¬(s ∪ t).card ≤ K := by
  have h2 : s ⊆ s ∪ t := Finset.subset_union_left
  have := Finset.card_le_card h2
  omega

theorem card_union_not_le_right {α : Type} [DecidableEq α] (K : Nat)
    (s t : Finset α) (h : ¬t.card ≤ K) : ¬(s ∪ t).card ≤ K := by
  have h2 : t ⊆ s ∪ t := Finset.subset_union_right
  have := Finset.card_le_card h2
  omega

theorem value_set_join_hassoc {α : Type} [DecidableEq α] (K : Nat)
    (s t u : value_sett K α) :
    fd_merge (value_set_join K) (value_set_join K s t) (.val u)
      = fd_merge (value_set_join K) (.val s) (value_set_join K t u) := by
  by_cases hst : (s.1 ∪ t.1).card ≤ K
  · by_cases htu : (t.1 ∪ u.1).card ≤ K
    · simp only [value_set_join, dif_pos hst, dif_pos htu, fd_merge_val_val,
        Finset.union_assoc]
    · have h2 : ¬(s.1 ∪ (t.1 ∪ u.1)).card ≤ K :=
        card_union_not_le_right K _ _ htu
      simp only [value_set_join, dif_pos hst, dif_neg htu,
        fd_merge_val_val, fd_merge_top_right]
      rw [dif_neg]
      rw [Finset.union_assoc]
      exact h2
  · have h2 : ¬((s.1 ∪ t.1) ∪ u.1).card ≤ K :=
      card_union_not_le_left K _ _ hst
    by_cases htu : (t.1 ∪ u.1).card ≤ K
    · have h3 : ¬(s.1 ∪ (t.1 ∪ u.1)).card ≤ K := by
        rw [← Finset.union_assoc]; exact h2
      simp only [value_set_join, dif_neg hst, dif_pos htu,
        fd_merge_top_left, fd_merge_val_val]
      rw [dif_neg h3]
    · simp only [value_set_join, dif_neg hst, dif_neg htu,
        fd_merge_top_left, fd_merge_top_right]

theorem zipWith_comm_of_comm (em : β → β → β)
    (hc : ∀ x y, em x y = em y x) (xs ys : List β) :
    List.zipWith em xs ys = List.zipWith em ys xs := by
  induction xs generalizing ys with
  | nil => cases ys <;> simp
  | cons x xs ih => cases ys <;> simp [hc, ih]

theorem zipWith_self_of_idem (em : β → β → β)
    (hi : ∀ x, em x x = x) (xs : List β) :
    List.zipWith em xs xs = xs := by
  induction xs with
  | nil => simp
  | cons x xs ih => simp [hi, ih]

theorem zipWith_assoc_of_assoc (em : β → β → β)
    (ha : ∀ x y z, em x (em y z) = em (em x y) z) (xs ys zs : List β) :
    List.zipWith em xs (List.zipWith em ys zs)
      = List.zipWith em (List.zipWith em xs ys) zs := by
  induction xs generalizing ys zs with
  | nil => simp
  | cons x xs ih => cases ys <;> cases zs <;> simp [ha, ih]

theorem fieldwise_join_comm (em : β → β → β)
    (hc : ∀ x y, em x y = em y x) (xs ys : List β) :
    fieldwise_join em xs ys = fieldwise_join em ys xs := by
  simp [fieldwise_join, zipWith_comm_of_comm em hc]

theorem fieldwise_join_idem (em : β → β → β)
    (hi : ∀ x, em x x = x) (xs : List β) :
    fieldwise_join em xs xs = flag_domaint.val xs := by
  unfold fieldwise_join
  rw [zipWith_self_of_idem em hi]

theorem fieldwise_join_hassoc (em : β → β → β)
    (ha : ∀ x y z, em x (em y z) = em (em x y) z) (xs ys zs : List β) :
    fd_merge (fieldwise_join em) (fieldwise_join em xs ys) (.val zs)
      = fd_merge (fieldwise_join em) (.val xs) (fieldwise_join em ys zs) := by
  simp [fieldwise_join, fd_merge_val_val, zipWith_assoc_of_assoc em ha]

theorem summary_join_comm (em : β → β → β)
    (hc : ∀ x y, em x y = em y x) (x y : β) :
    summary_join em x y = summary_join em y x := by
  simp [summary_join, hc]

theorem summary_join_idem (em : β → β → β)
    (hi : ∀ x, em x x = x) (x : β) :
    summary_join em x x = flag_domaint.val x := by
  simp [summary_join, hi]

theorem summary_join_hassoc (em : β → β → β)
    (ha : ∀ x y z, em x (em y z) = em (em x y) z) (x y z : β) :
    fd_merge (summary_join em) (summary_join em x y) (.val z)
      = fd_merge (summary_join em) (.val x) (summary_join em y z) := by
  simp [summary_join, fd_merge_val_val, ha]

theorem constant_merge_comm (x y : flag_domaint Int) :
    constant_merge x y = constant_merge y x :=
  fd_merge_comm eq_join eq_join_comm x y

theorem constant_merge_assoc (x y z : flag_domaint Int) :
    constant_merge x (constant_merge y z)
      = constant_merge (constant_merge x y) z :=
  fd_merge_assoc eq_join eq_join_hassoc x y z

theorem constant_merge_idem (x : flag_domaint Int) :
    constant_merge x x = x :=
  fd_merge_idem eq_join eq_join_idem x

theorem make_context_abstract_object_kind (kind : context_kindt)
    (variant : ABSTRACT_OBJECT_TYPET) (type : typet) (top bottom : Bool)
    (e : exprt) (environment : abstract_environmentt) (ns : namespacet)
    (obj : abstract_objectt)
    (h : make_context_abstract_object kind variant type top bottom e
      environment ns = .ok obj) :
    obj.context_kind = some kind := by
  unfold make_context_abstract_object at h
  split_ifs at h <;> simp_all [abstract_objectt.context_kind] <;>
    subst h <;> rfl

theorem make_context_abstract_object_depth (kind : context_kindt)
    (variant : ABSTRACT_OBJECT_TYPET) (type : typet) (top bottom : Bool)
    (e : exprt) (environment : abstract_environmentt) (ns : namespacet)
    (obj : abstract_objectt)
    (h : make_context_abstract_object kind variant type top bottom e
      environment ns = .ok obj) :
    obj.wrap_depth = 1 := by
  unfold make_context_abstract_object at h
  split_ifs at h <;> simp_all [abstract_objectt.wrap_depth,
    abstract_object_from_flags, abstract_object_from_expr] <;>
    subst h <;> rfl

/-- A concrete options value turning exactly the named flags on. -/
def options_of (flags : List String) : optionst :=
  { get_bool_option := fun name => flags.contains name }

/-- C1: for every options input with both the value-set flag and the
data-dependencies flag true, `from_options` fails with the configuration
error carrying the conflicting flag pair and the suggested fix, and no
configuration is returned. -/
theorem from_options_value_set_data_dependencies_fails (options : optionst)
    (hv : options.get_bool_option "value-set" = true)
    (hd : options.get_bool_option "data-dependencies" = true) :
    vsd_configt.from_options options =
      .error
        { reason :=
            "Value set is not currently supported with data dependency analysis"
          correct_option := "--value-set --data-dependencies"
          suggested_fix := "--data-dependencies" } := by
  simp [vsd_configt.from_options, hv, hd]

/-- Witness for C1 at a concrete options value. -/
theorem from_options_value_set_data_dependencies_fails_witness :
    vsd_configt.from_options
        (options_of ["value-set", "data-dependencies"]) =
      .error
        { reason :=
            "Value set is not currently supported with data dependency analysis"
          correct_option := "--value-set --data-dependencies"
          suggested_fix := "--data-dependencies" } :=
  from_options_value_set_data_dependencies_fails
    (options_of ["value-set", "data-dependencies"])
    (by decide) (by decide)

/-- C3: for every options input with the value-set flag true and the
data-dependencies flag false, `from_options` succeeds and the returned
configuration has `last_write_context = false`. -/
theorem from_options_value_set_disables_last_write (options : optionst)
    (hv : options.get_bool_option "value-set" = true)
    (hd : options.get_bool_option "data-dependencies" = false) :
    ∃ config, vsd_configt.from_options options = .ok config ∧
      config.context_tracking.last_write_context = false := by
  have h : vsd_configt.from_options options =
      .ok
        { primitive_sensitivity :=
            { struct_sensitivity := options.get_bool_option "structs"
              array_sensitivity := options.get_bool_option "arrays"
              pointer_sensitivity := options.get_bool_option "pointers" }
          context_tracking :=
            { last_write_context := !options.get_bool_option "value-set"
              data_dependency_context :=
                options.get_bool_option "data-dependencies" }
          advanced_sensitivities :=
            { intervals := options.get_bool_option "interval"
              value_set := options.get_bool_option "value-set"
              new_value_set := options.get_bool_option "new-value-set" } } := by
    simp [vsd_configt.from_options, hv, hd]
  exact ⟨_, h, by simp [hv]⟩

/-- Witness for C3 at a concrete options value. -/
theorem from_options_value_set_disables_last_write_witness :
    ∃ config,
      vsd_configt.from_options (options_of ["value-set"]) = .ok config ∧
        config.context_tracking.last_write_context = false :=
  from_options_value_set_disables_last_write (options_of ["value-set"])
    (by decide) (by decide)

/-- C8: the three named presets produce exactly the stated flag
combinations and nothing else. -/
theorem presets_exact_combinations :
    vsd_configt.constant_domain =
      { primitive_sensitivity :=
          { struct_sensitivity := true
            array_sensitivity := true
            pointer_sensitivity := true }
        context_tracking :=
          { data_dependency_context := false
            last_write_context := true }
        advanced_sensitivities :=
          { intervals := false
            value_set := false
            new_value_set := false } } ∧
    vsd_configt.intervals =
      { primitive_sensitivity :=
          { struct_sensitivity := true
            array_sensitivity := true
            pointer_sensitivity := true }
        context_tracking :=
          { data_dependency_context := false
            last_write_context := true }
        advanced_sensitivities :=
          { intervals := true
            value_set := false
            new_value_set := false } } ∧
    vsd_configt.value_set =
      { primitive_sensitivity :=
          { struct_sensitivity := true
            array_sensitivity := true
            pointer_sensitivity := true }
        context_tracking :=
          { data_dependency_context := false
            last_write_context := false }
        advanced_sensitivities :=
          { intervals := false
            value_set := true
            new_value_set := false } } :=
  ⟨rfl, rfl, rfl⟩

/-- C9: for every options input with the value-set flag false,
`from_options` succeeds with `last_write_context = true`, even when no
context-tracking flag was supplied: last-write context is on by default,
not opt-in. -/
theorem from_options_last_write_on_by_default (options : optionst)
    (hv : options.get_bool_option "value-set" = false) :
    ∃ config, vsd_configt.from_options options = .ok config ∧
      config.context_tracking.last_write_context = true := by
  have h : vsd_configt.from_options options =
      .ok
        { primitive_sensitivity :=
            { struct_sensitivity := options.get_bool_option "structs"
              array_sensitivity := options.get_bool_option "arrays"
              pointer_sensitivity := options.get_bool_option "pointers" }
          context_tracking :=
            { last_write_context := !options.get_bool_option "value-set"
              data_dependency_context :=
                options.get_bool_option "data-dependencies" }
          advanced_sensitivities :=
            { intervals := options.get_bool_option "interval"
              value_set := options.get_bool_option "value-set"
              new_value_set := options.get_bool_option "new-value-set" } } := by
    simp [vsd_configt.from_options, hv]
  exact ⟨_, h, by simp [hv]⟩

/-- Witness for C9 at a concrete options value with no flags at all. -/
theorem from_options_last_write_on_by_default_witness :
    ∃ config, vsd_configt.from_options (options_of []) = .ok config ∧
      config.context_tracking.last_write_context = true :=
  from_options_last_write_on_by_default (options_of []) (by decide)

/-- C10: `from_options` fails if and only if the value-set flag and the
data-dependencies flag are both true; every other combination (in
particular new-value-set together with data-dependencies) returns a
configuration. -/
theorem from_options_error_iff (options : optionst) :
    (vsd_configt.from_options options).isOk = false ↔
      (options.get_bool_option "value-set" &&
        options.get_bool_option "data-dependencies") = true := by
  unfold vsd_configt.from_options
  split <;> simp_all [Except.isOk, Except.toBool]

/-- C2: for every configuration with both the last-write context flag and
the data-dependency context flag set, the factory takes the
data-dependency context path, so any object it returns is wrapped in a
data-dependency context (dependency context takes precedence). -/
theorem data_dependency_context_takes_precedence
    (configuration : vsd_configt)
    (hd : configuration.context_tracking.data_dependency_context = true)
    (hl : configuration.context_tracking.last_write_context = true)
    (variant : ABSTRACT_OBJECT_TYPET) (type : typet) (top bottom : Bool)
    (e : exprt) (environment : abstract_environmentt) (ns : namespacet) :
    make_abstract_object configuration variant type top bottom e
        environment ns
      = make_context_abstract_object .data_dependency_context variant type
          top bottom e environment ns ∧
    ∀ obj,
      make_abstract_object configuration variant type top bottom e
          environment ns = .ok obj →
        obj.context_kind = some .data_dependency_context := by
  have h1 : make_abstract_object configuration variant type top bottom e
      environment ns
    = make_context_abstract_object .data_dependency_context variant type
        top bottom e environment ns := by
    simp [make_abstract_object, hd]
  refine ⟨h1, fun obj hobj => ?_⟩
  exact make_context_abstract_object_kind _ _ _ _ _ _ _ _ _
    (h1.symm.trans hobj)

/-- Witness for C2 at a concrete configuration with both context flags. -/
theorem data_dependency_context_takes_precedence_witness :
    make_abstract_object
        { vsd_configt.zero with
          context_tracking :=
            { data_dependency_context := true, last_write_context := true } }
        .CONSTANT ⟨1⟩ true false ⟨0, ⟨1⟩⟩ ⟨0⟩ ⟨id⟩
      = make_context_abstract_object .data_dependency_context .CONSTANT
          ⟨1⟩ true false ⟨0, ⟨1⟩⟩ ⟨0⟩ ⟨id⟩ :=
  (data_dependency_context_takes_precedence
    { vsd_configt.zero with
      context_tracking :=
        { data_dependency_context := true, last_write_context := true } }
    rfl rfl .CONSTANT ⟨1⟩ true false ⟨0, ⟨1⟩⟩ ⟨0⟩ ⟨id⟩).1

/-- C4: any object the factory returns carries exactly one context
wrapper when a context-tracking mode is configured, and none when no
context-tracking mode is configured. -/
theorem factory_wraps_exactly_once
    (configuration : vsd_configt) (variant : ABSTRACT_OBJECT_TYPET)
    (type : typet) (top bottom : Bool) (e : exprt)
    (environment : abstract_environmentt) (ns : namespacet)
    (obj : abstract_objectt)
    (h : make_abstract_object configuration variant type top bottom e
      environment ns = .ok obj) :
    ((configuration.context_tracking.data_dependency_context = true ∨
        configuration.context_tracking.last_write_context = true) →
      obj.wrap_depth = 1) ∧
    ((configuration.context_tracking.data_dependency_context = false ∧
        configuration.context_tracking.last_write_context = false) →
      obj.wrap_depth = 0) := by
  cases hd : configuration.context_tracking.data_dependency_context with
  | true =>
    simp only [make_abstract_object, hd, if_true] at h
    refine ⟨fun _ => ?_, fun hc => Bool.noConfusion hc.1⟩
    exact make_context_abstract_object_depth _ _ _ _ _ _ _ _ _ h
  | false =>
    cases hl : configuration.context_tracking.last_write_context with
    | true =>
      simp only [make_abstract_object, hd, hl, Bool.false_eq_true,
        if_false, if_true] at h
      refine ⟨fun _ => ?_, fun hc => Bool.noConfusion hc.2⟩
      exact make_context_abstract_object_depth _ _ _ _ _ _ _ _ _ h
    | false =>
      simp only [make_abstract_object, hd, hl, Bool.false_eq_true,
        if_false] at h
      refine ⟨fun hor => ?_, fun _ => ?_⟩
      · rcases hor with h1 | h1
        · exact Bool.noConfusion h1
        · exact Bool.noConfusion h1
      · split_ifs at h with h1 h2 <;>
          simp_all [abstract_object_from_flags, abstract_object_from_expr,
            abstract_objectt.wrap_depth] <;>
          subst h <;> rfl

/-- Witness for C4: a last-write configuration wraps once, the zero
configuration wraps not at all, at concrete inputs. -/
theorem factory_wraps_exactly_once_witness :
    (∀ obj,
      make_abstract_object vsd_configt.constant_domain .CONSTANT ⟨1⟩ true
          false ⟨0, ⟨1⟩⟩ ⟨0⟩ ⟨id⟩ = .ok obj →
        obj.wrap_depth = 1) ∧
    (∀ obj,
      make_abstract_object vsd_configt.zero .CONSTANT ⟨1⟩ true false
          ⟨0, ⟨1⟩⟩ ⟨0⟩ ⟨id⟩ = .ok obj →
        obj.wrap_depth = 0) :=
  ⟨fun obj h =>
    (factory_wraps_exactly_once vsd_configt.constant_domain .CONSTANT ⟨1⟩
      true false ⟨0, ⟨1⟩⟩ ⟨0⟩ ⟨id⟩ obj h).1 (Or.inr rfl),
   fun obj h =>
    (factory_wraps_exactly_once vsd_configt.zero .CONSTANT ⟨1⟩ true false
      ⟨0, ⟨1⟩⟩ ⟨0⟩ ⟨id⟩ obj h).2 ⟨rfl, rfl⟩⟩

/-- C5: when the top flag or the bottom flag is set, the factory builds
the object directly in that lattice state (its `is_top`/`is_bottom`
matches the request, for every type and configuration) and the seed
expression is ignored: two calls differing only in the seed expression
return equal results. -/
theorem factory_top_bottom_ignores_seed
    (configuration : vsd_configt) (variant : ABSTRACT_OBJECT_TYPET)
    (type : typet) (top bottom : Bool) (e e2 : exprt)
    (environment : abstract_environmentt) (ns : namespacet)
    (h : (top || bottom) = true) :
    (∀ obj,
      make_abstract_object configuration variant type top bottom e
          environment ns = .ok obj →
        obj.is_top = top ∧ obj.is_bottom = bottom) ∧
    make_abstract_object configuration variant type top bottom e
        environment ns
      = make_abstract_object configuration variant type top bottom e2
          environment ns := by
  have hcases : ∀ e3 : exprt,
      make_abstract_object configuration variant type top bottom e3
          environment ns
        = (if configuration.context_tracking.data_dependency_context then
            .ok (.context_object .data_dependency_context
              (.base variant type top bottom none) type top bottom none)
          else if configuration.context_tracking.last_write_context then
            .ok (.context_object .write_location_context
              (.base variant type top bottom none) type top bottom none)
          else .ok (.base variant type top bottom none)) := by
    intro e3
    cases hd : configuration.context_tracking.data_dependency_context <;>
      cases hl : configuration.context_tracking.last_write_context <;>
      simp [make_abstract_object, make_context_abstract_object, hd, hl, h,
        abstract_object_from_flags]
  constructor
  · intro obj hobj
    rw [hcases e] at hobj
    split_ifs at hobj <;>
      (injection hobj with h2; subst h2; exact ⟨rfl, rfl⟩)
  · rw [hcases e, hcases e2]

/-- Witness for C5: requesting top with two different seed expressions
gives equal results. -/
theorem factory_top_bottom_ignores_seed_witness :
    make_abstract_object vsd_configt.constant_domain .CONSTANT ⟨5⟩ true
        false ⟨1, ⟨5⟩⟩ ⟨0⟩ ⟨id⟩
      = make_abstract_object vsd_configt.constant_domain .CONSTANT ⟨5⟩
          true false ⟨2, ⟨7⟩⟩ ⟨0⟩ ⟨id⟩ :=
  (factory_top_bottom_ignores_seed vsd_configt.constant_domain .CONSTANT
    ⟨5⟩ true false ⟨1, ⟨5⟩⟩ ⟨2, ⟨7⟩⟩ ⟨0⟩ ⟨id⟩ rfl).2

/-- C6: when neither top nor bottom is set, every construction path
(wrapped and unwrapped, i.e. every configuration) checks the contract
precondition `type == ns.follow(e.type())`: violating it yields the
contract-violation error, and under the precondition construction from
the seed succeeds. -/
theorem factory_type_seed_precondition (configuration : vsd_configt)
    (variant : ABSTRACT_OBJECT_TYPET) (type : typet) (e : exprt)
    (environment : abstract_environmentt) (ns : namespacet) :
    (type ≠ ns.follow e.type →
      make_abstract_object configuration variant type false false e
          environment ns
        = .error { condition := "type == ns.follow(e.type())" }) ∧
    (type = ns.follow e.type →
      ∃ obj,
        make_abstract_object configuration variant type false false e
          environment ns = .ok obj) := by
  cases hd : configuration.context_tracking.data_dependency_context <;>
    cases hl : configuration.context_tracking.last_write_context <;>
    constructor <;>
    intro hty <;>
    simp [make_abstract_object, make_context_abstract_object, hd, hl, hty]

/-- Witness for C6: a mismatched type/seed pair errors, a matching one
succeeds, at concrete inputs. -/
theorem factory_type_seed_precondition_witness :
    make_abstract_object vsd_configt.zero .CONSTANT ⟨1⟩ false false
        ⟨0, ⟨2⟩⟩ ⟨0⟩ ⟨id⟩
      = .error { condition := "type == ns.follow(e.type())" } ∧
    ∃ obj,
      make_abstract_object vsd_configt.zero .CONSTANT ⟨2⟩ false false
        ⟨0, ⟨2⟩⟩ ⟨0⟩ ⟨id⟩ = .ok obj :=
  ⟨(factory_type_seed_precondition vsd_configt.zero .CONSTANT ⟨1⟩
      ⟨0, ⟨2⟩⟩ ⟨0⟩ ⟨id⟩).1 (by decide),
   (factory_type_seed_precondition vsd_configt.zero .CONSTANT ⟨2⟩
      ⟨0, ⟨2⟩⟩ ⟨0⟩ ⟨id⟩).2 rfl⟩

/-- C7: the merge operation of every abstract-object variant satisfies
the five lattice laws: commutativity, associativity, idempotence, bottom
is the identity, top is absorbing. -/
theorem merge_lattice_laws_all_variants (K : Nat) :
    lattice_laws two_value_merge .bot .top ∧
    lattice_laws constant_merge .bot .top ∧
    lattice_laws interval_merge .bot .top ∧
    lattice_laws (value_set_merge K) .bot .top ∧
    lattice_laws struct_sensitive_merge .bot .top ∧
    lattice_laws array_sensitive_merge .bot .top ∧
    lattice_laws (pointer_sensitive_merge K) .bot .top ∧
    lattice_laws struct_insensitive_merge .bot .top ∧
    lattice_laws array_insensitive_merge .bot .top ∧
    lattice_laws pointer_insensitive_merge .bot .top ∧
    lattice_laws union_insensitive_merge .bot .top :=
  ⟨fd_merge_laws eq_join eq_join_comm eq_join_idem eq_join_hassoc,
   fd_merge_laws eq_join eq_join_comm eq_join_idem eq_join_hassoc,
   fd_merge_laws interval_join interval_join_comm interval_join_idem
     interval_join_hassoc,
   fd_merge_laws (value_set_join K) (value_set_join_comm K)
     (value_set_join_idem K) (value_set_join_hassoc K),
   fd_merge_laws (fieldwise_join constant_merge)
     (fieldwise_join_comm constant_merge constant_merge_comm)
     (fieldwise_join_idem constant_merge constant_merge_idem)
     (fieldwise_join_hassoc constant_merge constant_merge_assoc),
   fd_merge_laws (fieldwise_join constant_merge)
     (fieldwise_join_comm constant_merge constant_merge_comm)
     (fieldwise_join_idem constant_merge constant_merge_idem)
     (fieldwise_join_hassoc constant_merge constant_merge_assoc),
   fd_merge_laws (value_set_join K) (value_set_join_comm K)
     (value_set_join_idem K) (value_set_join_hassoc K),
   fd_merge_laws (summary_join constant_merge)
     (summary_join_comm constant_merge constant_merge_comm)
     (summary_join_idem constant_merge constant_merge_idem)
     (summary_join_hassoc constant_merge constant_merge_assoc),
   fd_merge_laws (summary_join constant_merge)
     (summary_join_comm constant_merge constant_merge_comm)
     (summary_join_idem constant_merge constant_merge_idem)
     (summary_join_hassoc constant_merge constant_merge_assoc),
   fd_merge_laws (summary_join constant_merge)
     (summary_join_comm constant_merge constant_merge_comm)
     (summary_join_idem constant_merge constant_merge_idem)
     (summary_join_hassoc constant_merge constant_merge_assoc),
   fd_merge_laws (summary_join constant_merge)
     (summary_join_comm constant_merge constant_merge_comm)
     (summary_join_idem constant_merge constant_merge_idem)
     (summary_join_hassoc constant_merge constant_merge_assoc)⟩
